import Mathlib

/-!
Verification of the design-pattern demo application (nine pattern modules
driven by a common UI shell).  Each module's logical core — the object
model plus the user-triggered scenario handlers — is embedded shallowly:
classes become inductive types or structures, methods become functions,
mutable fields become explicit state passing, and the `Math.random()` /
`new Date()` calls become explicit inputs drawn from an environment.
-/

namespace PB3

/-! ### Decorator module (decorator-ex)

`Coffee` is the component interface; `SimpleEspresso` the concrete
component; `MilkDecorator`, `SugarDecorator`, `ShotDecorator` the concrete
decorators, each wrapping an inner `Coffee`.  The built object graph is a
chain, embedded as an inductive type.  -/

inductive Coffee where
  | simpleEspresso : Coffee
  | milkDecorator : Coffee → Coffee
  | sugarDecorator : Coffee → Coffee
  | shotDecorator : Coffee → Coffee
deriving DecidableEq

/-- Method `getCost`: the base espresso costs 3000; each decorator adds its
surcharge to the wrapped coffee's cost (500 milk, 200 sugar, 700 shot). -/
def Coffee.getCost : Coffee → Nat
  | .simpleEspresso => 3000
  | .milkDecorator c => c.getCost + 500
  | .sugarDecorator c => c.getCost + 200
  | .shotDecorator c => c.getCost + 700

/-- Method `getDescription`: the base description with each decorator's fragment
appended after the wrapped coffee's description. -/
def Coffee.getDescription : Coffee → String
  | .simpleEspresso => "에스프레소"
  | .milkDecorator c => c.getDescription ++ " + 우유"
  | .sugarDecorator c => c.getDescription ++ " + 설탕"
  | .shotDecorator c => c.getDescription ++ " + 샷 추가"

/-- The reactive checkbox state `options` of the Decorator panel. -/
structure CoffeeOptions where
  milk : Bool
  sugar : Bool
  shot : Bool
deriving DecidableEq

/-- The object graph built by the `makeCoffee` handler: start from
`SimpleEspresso`, then wrap with the milk, sugar and shot decorators in
that fixed order, skipping unselected options. -/
def makeCoffeeObj (options : CoffeeOptions) : Coffee :=
  let coffee := Coffee.simpleEspresso
  let coffee := if options.milk then Coffee.milkDecorator coffee else coffee
  let coffee := if options.sugar then Coffee.sugarDecorator coffee else coffee
  let coffee := if options.shot then Coffee.shotDecorator coffee else coffee
  coffee

/-- The `makeCoffee` handler's output string. -/
def makeCoffee (options : CoffeeOptions) : String :=
  let coffee := makeCoffeeObj options
  let cost := coffee.getCost
  let description := coffee.getDescription
  "주문 내역: " ++ description ++ "\n총 가격: " ++ toString cost ++ "원"

/-- One optional layer of the Decorator demo. -/
inductive Layer where
  | milk | sugar | shot
deriving DecidableEq

/-- The fixed surcharge of each layer. -/
def Layer.surcharge : Layer → Nat
  | .milk => 500
  | .sugar => 200
  | .shot => 700

/-- Wrapping one layer around a coffee (applying that concrete decorator). -/
def Layer.apply : Layer → Coffee → Coffee
  | .milk, c => .milkDecorator c
  | .sugar, c => .sugarDecorator c
  | .shot, c => .shotDecorator c

/-- Applying a sequence of decorator layers, innermost first. -/
def applyLayers (ls : List Layer) (c : Coffee) : Coffee :=
  ls.foldl (fun c l => l.apply c) c

/-- Clicking one of the three checkboxes flips the corresponding option. -/
def toggleOption : Layer → CoffeeOptions → CoffeeOptions
  | .milk, o => { o with milk := !o.milk }
  | .sugar, o => { o with sugar := !o.sugar }
  | .shot, o => { o with shot := !o.shot }

/-- The options reached after a sequence of checkbox clicks. -/
def applyToggles (ts : List Layer) (o : CoffeeOptions) : CoffeeOptions :=
  ts.foldl (fun o t => toggleOption t o) o

/-! ### State module (state-ex)

`TrafficLightContext` holds the current state; `request` delegates to the
current state's `handle`, which produces a log line and transitions the
context to the next state of the fixed red → green → yellow → red cycle. -/

inductive TrafficLightState where
  | red | green | yellow
deriving DecidableEq

/-- Method `handle` of each concrete state: the returned log line together with
the state the context is transitioned to. -/
def TrafficLightState.handle : TrafficLightState → String × TrafficLightState
  | .red => ("🔴 정지 (STOP)", .green)
  | .green => ("🟢 진행 (GO)", .yellow)
  | .yellow => ("🟡 주의 (CAUTION)", .red)

structure TrafficLightContext where
  currentState : TrafficLightState
deriving DecidableEq

/-- The constructor sets the initial state to `RedState`. -/
def TrafficLightContext.init : TrafficLightContext := ⟨.red⟩

/-- Method `request`: delegate to the current state's `handle`; the state both
returns the action line and resets the context's current state. -/
def TrafficLightContext.request (c : TrafficLightContext) :
    String × TrafficLightContext :=
  let r := c.currentState.handle
  (r.1, ⟨r.2⟩)

/-- N consecutive `request` calls: the list of returned log lines and the
final context. -/
def requestN : Nat → TrafficLightContext → List String × TrafficLightContext
  | 0, c => ([], c)
  | n + 1, c =>
      let r := c.request
      let rest := requestN n r.2
      (r.1 :: rest.1, rest.2)

/-- The state-transition part of `request`. -/
def tlStep (s : TrafficLightState) : TrafficLightState := s.handle.2

/-- The cycle element reached after `k` requests from Red: position
`k mod 3` of the cycle red, green, yellow. -/
def cycleState (k : Nat) : TrafficLightState :=
  match k % 3 with
  | 0 => .red
  | 1 => .green
  | _ => .yellow

/-- The log line of the `k`-th request (counting from 0) from the initial
Red state: the `(k mod 3)`-th element of the STOP, GO, CAUTION cycle. -/
def cycleLine (k : Nat) : String :=
  match k % 3 with
  | 0 => "🔴 정지 (STOP)"
  | 1 => "🟢 진행 (GO)"
  | _ => "🟡 주의 (CAUTION)"

/-! ### Proxy module (proxy-ex)

`RealImage` is the heavyweight resource, constructed with a load log;
`ProxyImage` holds an optional cached `RealImage` (initially `null`) and
constructs it on the first `display()` call only. -/

structure RealImage where
  filename : String
  loadLog : String
deriving DecidableEq

/-- The `RealImage` constructor: records the filename and the heavy-load
log line. -/
def RealImage.create (filename : String) : RealImage :=
  { filename := filename
    loadLog := "[RealImage] " ++ filename ++ " 로딩 완료... (무거운 작업)" }

def RealImage.display (r : RealImage) : String :=
  "[RealImage] " ++ r.filename ++ " 화면에 표시 🖼️"

def RealImage.getLoadLog (r : RealImage) : String := r.loadLog

structure ProxyImage where
  realImage : Option RealImage
  filename : String
deriving DecidableEq

/-- The `ProxyImage` constructor: stores the filename, no `RealImage` yet. -/
def ProxyImage.create (filename : String) : ProxyImage :=
  { realImage := none, filename := filename }

/-- Method `ProxyImage.display`: push the call log; if the cached `RealImage` is
still absent, construct and cache it (pushing the creation log and the
load log), otherwise push the reuse log; finally delegate to the real
image's `display`.  Returns the pushed log lines and the updated proxy. -/
def ProxyImage.displayLogs (p : ProxyImage) : List String × ProxyImage :=
  let callLog := "[ProxyImage] display() 호출됨 (" ++ p.filename ++ ")"
  match p.realImage with
  | none =>
      let real := RealImage.create p.filename
      ([callLog, "[ProxyImage] RealImage가 없으므로 새로 생성...",
        real.getLoadLog, real.display],
       { p with realImage := some real })
  | some real =>
      ([callLog, "[ProxyImage] 이미 로드된 RealImage 재사용.", real.display],
       p)

/-- The source joins the pushed logs with a newline into the returned
string. -/
def ProxyImage.display (p : ProxyImage) : String × ProxyImage :=
  let r := p.displayLogs
  (String.intercalate ("\n") r.1, r.2)

/-- K consecutive `display()` calls on one proxy: the per-call log-line
lists, and the final proxy. -/
def proxyRun : Nat → ProxyImage → List (List String) × ProxyImage
  | 0, p => ([], p)
  | k + 1, p =>
      let r := p.displayLogs
      let rest := proxyRun k r.2
      (r.1 :: rest.1, rest.2)

/-- The transcript of the first `display()` call on a fresh proxy for
`filename` (creation path). -/
def proxyFirstCallLogs (filename : String) : List String :=
  ["[ProxyImage] display() 호출됨 (" ++ filename ++ ")",
   "[ProxyImage] RealImage가 없으므로 새로 생성...",
   "[RealImage] " ++ filename ++ " 로딩 완료... (무거운 작업)",
   "[RealImage] " ++ filename ++ " 화면에 표시 🖼️"]

/-- The transcript of every later `display()` call (reuse path). -/
def proxyLaterCallLogs (filename : String) : List String :=
  ["[ProxyImage] display() 호출됨 (" ++ filename ++ ")",
   "[ProxyImage] 이미 로드된 RealImage 재사용.",
   "[RealImage] " ++ filename ++ " 화면에 표시 🖼️"]

/-- The creation/loading marker line of the proxy transcripts. -/
def proxyCreationMarker : String := "[ProxyImage] RealImage가 없으므로 새로 생성..."

/-- The reuse line of the proxy transcripts. -/
def proxyReuseLine : String := "[ProxyImage] 이미 로드된 RealImage 재사용."

/-! ### Observer module (observer-ex)

`DisplayObserver` instances are compared by reference in the source
(`Array.includes` / `indexOf` use object identity); the `id` field models
that allocation identity, so two distinct observer objects sharing a name
remain distinguishable. -/

structure DisplayObserver where
  id : Nat
  name : String
deriving DecidableEq

/-- Method `DisplayObserver.update`: the notification log line. -/
def DisplayObserver.update (o : DisplayObserver) (temperature : Int) : String :=
  "[" ++ o.name ++ "] 알림 수신: 현재 온도는 " ++ toString temperature ++ "℃ 입니다."

structure WeatherStation where
  observers : List DisplayObserver
  temperature : Int
deriving DecidableEq

/-- A fresh `WeatherStation`: no observers, temperature 0. -/
def WeatherStation.new : WeatherStation := ⟨[], 0⟩

/-- Method `subscribe`: if the observer is already in the list, return without
changing it; otherwise push it at the end. -/
def WeatherStation.subscribe (w : WeatherStation) (o : DisplayObserver) :
    WeatherStation :=
  if o ∈ w.observers then w
  else { w with observers := w.observers ++ [o] }

/-- Method `unsubscribe`: `indexOf` then `splice(index, 1)` — remove the first
occurrence if present, otherwise return unchanged. -/
def WeatherStation.unsubscribe (w : WeatherStation) (o : DisplayObserver) :
    WeatherStation :=
  { w with observers := w.observers.erase o }

/-- Method `notify`: the header line with the observer count, then one `update`
line per subscribed observer, in list order. -/
def WeatherStation.notify (w : WeatherStation) : List String :=
  ("[WeatherStation] " ++ toString w.observers.length ++ "개의 Observer에게 알림 전송...")
    :: w.observers.map (fun o => o.update w.temperature)

/-- Method `setTemperature`: store the new temperature, then the change header
line followed by the `notify` logs; returns the logs and the station. -/
def WeatherStation.setTemperature (w : WeatherStation) (temp : Int) :
    List String × WeatherStation :=
  let w' := { w with temperature := temp }
  (("--- (기상 관측소 온도가 " ++ toString temp ++ "℃로 변경됨) ---") :: w'.notify, w')

/-- The notification entries of one `setTemperature` call: everything
after the two header lines (the change line and the notify count line). -/
def notificationEntries (logs : List String) : List String := logs.drop 2

/-! ### Abstract Factory module (abstractFactory-ex)

Concrete buttons and checkboxes of the Windows and Mac families, the two
concrete factories, and the `Application` client that stores the products
`createUI` obtained from its injected factory. -/

inductive ButtonP where
  | winButton | macButton
deriving DecidableEq

inductive CheckboxP where
  | winCheckbox | macCheckbox
deriving DecidableEq

def ButtonP.paint : ButtonP → String
  | .winButton => "Windows 스타일 버튼 렌더링 [ 네모 버튼 ]"
  | .macButton => "macOS 스타일 버튼 렌더링 ( 둥근 버튼 )"

def CheckboxP.paint : CheckboxP → String
  | .winCheckbox => "Windows 스타일 체크박스 렌더링 [ V 체크박스 ]"
  | .macCheckbox => "macOS 스타일 체크박스 렌더링 ( O 체크박스 )"

/-- The product family a concrete variant belongs to. -/
inductive Family where
  | windows | mac
deriving DecidableEq

def ButtonP.family : ButtonP → Family
  | .winButton => .windows
  | .macButton => .mac

def CheckboxP.family : CheckboxP → Family
  | .winCheckbox => .windows
  | .macCheckbox => .mac

inductive GUIFactory where
  | winFactory | macFactory
deriving DecidableEq

/-- Method `WinFactory.createButton` returns a `WinButton`;
`MacFactory.createButton` a `MacButton`. -/
def GUIFactory.createButton : GUIFactory → ButtonP
  | .winFactory => .winButton
  | .macFactory => .macButton

/-- Method `WinFactory.createCheckbox` returns a `WinCheckbox`;
`MacFactory.createCheckbox` a `MacCheckbox`. -/
def GUIFactory.createCheckbox : GUIFactory → CheckboxP
  | .winFactory => .winCheckbox
  | .macFactory => .macCheckbox

/-- The family a concrete factory produces. -/
def GUIFactory.family : GUIFactory → Family
  | .winFactory => .windows
  | .macFactory => .mac

/-- The `Application` client: the injected factory plus the `button` and
`checkbox` fields, definitely assigned only once `createUI` has run
(modelled with `Option`). -/
structure Application where
  factory : GUIFactory
  button : Option ButtonP
  checkbox : Option CheckboxP
deriving DecidableEq

/-- The `Application` constructor: stores the factory; products not yet
created. -/
def Application.new (factory : GUIFactory) : Application :=
  ⟨factory, none, none⟩

/-- Method `createUI`: obtain both products from the stored factory. -/
def Application.createUI (a : Application) : Application :=
  { a with
    button := some a.factory.createButton
    checkbox := some a.factory.createCheckbox }

/-- Method `paintUI`: join the products' `paint` outputs.  The source asserts the
fields are assigned (`!`); the `Option.elim` default is unreachable on the
demo path, which always calls `createUI` first. -/
def Application.paintUI (a : Application) : String :=
  String.intercalate ("\n")
    [(a.button.map ButtonP.paint).getD (""), (a.checkbox.map CheckboxP.paint).getD ("")]

/-- The two methods a client can invoke on an `Application` after
construction. -/
inductive AppCall where
  | createUI | paintUI
deriving DecidableEq

/-- Running a sequence of `Application` calls; `paintUI` does not mutate. -/
def runAppCalls (calls : List AppCall) (a : Application) : Application :=
  calls.foldl (fun a c => match c with
    | .createUI => a.createUI
    | .paintUI => a) a

/-- The `createUI(os)` click handler of the Abstract Factory panel. -/
def createUIHandler (os : Family) : String :=
  let factory := match os with
    | .windows => GUIFactory.winFactory
    | .mac => GUIFactory.macFactory
  let app := (Application.new factory).createUI
  (match os with
    | .windows => "[ Windows 테마 적용됨 ]\n"
    | .mac => "[ Mac 테마 적용됨 ]\n") ++ app.paintUI

/-! ### Visitor module (visitor-ex)

The source computes `Math.PI * r * r` etc. and formats with `toFixed(2)`;
the embedding keeps the exact numeric value, represented symbolically as
`q + pc·π` with rational `q`, `pc` (the shapes' parameters are integers,
and every computed value is a rational multiple of 1 or of π).  A result
line keeps the label, the shape name, the shape's parameter and the
value, abstracting the decimal formatting of the display string. -/

structure NumVal where
  q : ℚ
  pc : ℚ
deriving DecidableEq

/-- The real number a `NumVal` stands for: `q + pc·π`. -/
noncomputable def NumVal.toReal (v : NumVal) : ℝ :=
  (v.q : ℝ) + (v.pc : ℝ) * Real.pi

/-- One line pushed by a visitor's visit method:
`[label] shapeName (param): value`. -/
structure ResultLine where
  label : String
  shapeName : String
  param : ℚ
  value : NumVal
deriving DecidableEq

inductive ShapeVisitor where
  | areaCalculator | perimeterCalculator
deriving DecidableEq

/-- Method `visitCircle` of each concrete visitor: area `π·r·r`, perimeter
`2·π·r`. -/
def ShapeVisitor.visitCircle : ShapeVisitor → ℚ → ResultLine
  | .areaCalculator, radius => ⟨"면적", "원", radius, ⟨0, radius * radius⟩⟩
  | .perimeterCalculator, radius => ⟨"둘레", "원", radius, ⟨0, 2 * radius⟩⟩

/-- Method `visitSquare` of each concrete visitor: area `s·s`, perimeter `4·s`. -/
def ShapeVisitor.visitSquare : ShapeVisitor → ℚ → ResultLine
  | .areaCalculator, side => ⟨"면적", "사각형", side, ⟨side * side, 0⟩⟩
  | .perimeterCalculator, side => ⟨"둘레", "사각형", side, ⟨4 * side, 0⟩⟩

inductive Shape where
  | circle (radius : ℚ)
  | square (side : ℚ)
deriving DecidableEq

/-- Method `accept`: double dispatch — the element hands itself to the visitor's
type-specific method.  The element is returned alongside the line to make
explicit that the call leaves it unmodified (the source methods never
mutate `this`). -/
def Shape.accept (s : Shape) (v : ShapeVisitor) : ResultLine × Shape :=
  match s with
  | .circle radius => (v.visitCircle radius, s)
  | .square side => (v.visitSquare side, s)

/-- The fixed element list created at mount. -/
def shapes : List Shape := [.circle 10, .square 8, .circle 5]

/-- The `runVisitor(type)` handler: pick the visitor, push the header,
then push `shape.accept(visitor)` for every element of `shapes`. -/
def runVisitor (v : ShapeVisitor) : String × List ResultLine :=
  let header := match v with
    | .areaCalculator => "--- 면적 계산기(Visitor) 실행 ---"
    | .perimeterCalculator => "--- 둘레 계산기(Visitor) 실행 ---"
  (header, shapes.map (fun s => (s.accept v).1))

/-! ### Factory Method module (factoryMethod-ex) -/

inductive Transport where
  | truck | ship
deriving DecidableEq

def Transport.deliver : Transport → String
  | .truck => "트럭이 육로로 배송을 시작합니다... 🚚"
  | .ship => "배가 해상으로 배송을 시작합니다... 🚢"

inductive Logistics where
  | roadLogistics | seaLogistics
deriving DecidableEq

/-- The factory method: `RoadLogistics` creates a `Truck`, `SeaLogistics`
a `Ship`. -/
def Logistics.createTransport : Logistics → Transport
  | .roadLogistics => .truck
  | .seaLogistics => .ship

/-- Method `planDelivery`: create the transport via the factory method and use
it. -/
def Logistics.planDelivery (l : Logistics) : String :=
  "[계획 실행] " ++ l.createTransport.deliver

/-- The `runLogistics(type)` handler. -/
def runLogistics (t : Logistics) : String := t.planDelivery

/-! ### Adapter module (adaptor-ex) -/

/-- Method `OldAnalyticsService.logEvent`. -/
def logEvent (eventName : String) (eventValue : Nat) : String :=
  "[OldAnalytics] 이벤트 기록: " ++ eventName ++ " (값: " ++ toString eventValue ++ ")"

/-- Method `AnalyticsAdapter.sendRequest`: translate the `data` record into a
`logEvent` call on the wrapped service. -/
def sendRequest (dataType : String) (amount : Nat) : String :=
  "[Adapter] 변환 완료:\n" ++ logEvent dataType amount

/-- Method `Client.sendData`: always sends `{ type: 'purchase', amount: 15000 }`
through the target interface. -/
def clientSendData : String := sendRequest ("purchase") 15000

/-- The `runClientCode` handler. -/
def runClientCode : String := clientSendData

/-! ### Singleton module (singleton-ex)

The eager singleton's `creationTime` is fixed when the class loads; it is
part of the application state.  `RegularClass` (the bad-example class)
reads the clock and a random id at every construction; both are drawn
from the environment. -/

/-- Method `Singleton.operation` for the instance created at time `t`. -/
def singletonOperation (t : String) : String :=
  "안녕하세요! 저는 " ++ t ++ "에 생성된 싱글톤입니다. 👋"

/-- The `testEagerSingleton` handler's output lines: both `getInstance`
calls return the one instance, so the reference comparison prints
`true`. -/
def testEagerSingletonLines (t : String) : List String :=
  ["s1.operation(): " ++ singletonOperation t,
   "s2.operation(): " ++ singletonOperation t,
   "",
   "s1 === s2 : true"]

/-- The singleton `showGoodExample` handler's output lines. -/
def singletonShowGoodLines (t : String) : List String :=
  ["첫 번째 요청: " ++ singletonOperation t,
   "두 번째 요청: " ++ singletonOperation t,
   "세 번째 요청: " ++ singletonOperation t,
   "",
   "instance1 === instance2: true",
   "instance2 === instance3: true",
   "instance1 === instance3: true",
   "",
   "✅ 결과: 모두 같은 인스턴스입니다!",
   "💾 메모리: 인스턴스 1개만 사용"]

/-- A `RegularClass` instance: creation time from the clock, id
`Math.floor(Math.random() * 10000)` modelled as a draw reduced mod
10000. -/
structure RegularInstance where
  creationTime : String
  rcId : Nat
deriving DecidableEq

def RegularInstance.operation (r : RegularInstance) : String :=
  "안녕하세요! 저는 " ++ r.creationTime ++ "에 생성된 인스턴스 #" ++ toString r.rcId ++ "입니다."

/-! ### Fixed good/bad-example transcripts

The remaining click handlers build fixed string arrays (no inputs, no
state reads). -/

/-- The decorator `showGoodExample` handler: wraps the espresso with all
three decorators and prints the resulting order plus fixed notes. -/
def decoratorShowGoodLines : List String :=
  let coffee := Coffee.shotDecorator (.sugarDecorator (.milkDecorator .simpleEspresso))
  ["--- 데코레이터 패턴 사용 ---",
   "",
   "주문: " ++ coffee.getDescription,
   "가격: " ++ toString coffee.getCost ++ "원",
   "",
   "✅ 필요한 클래스: 4개",
   "   - SimpleEspresso (기본)",
   "   - MilkDecorator",
   "   - SugarDecorator",
   "   - ShotDecorator",
   "",
   "✅ 새로운 옵션(예: 시럽) 추가 시:",
   "   - SyrupDecorator 클래스 1개만 추가하면 됨",
   "   - 기존 코드 수정 불필요"]

/-- The decorator `showBadExample` handler: a fixed explanatory list. -/
def decoratorShowBadLines : List String :=
  ["--- 서브클래스 방식 (데코레이터 미사용) ---",
   "",
   "❌ 필요한 클래스: 8개 (옵션 3개의 경우)",
   "   1. Espresso (기본)",
   "   2. EspressoWithMilk",
   "   3. EspressoWithSugar",
   "   4. EspressoWithShot",
   "   5. EspressoWithMilkAndSugar",
   "   6. EspressoWithMilkAndShot",
   "   7. EspressoWithSugarAndShot",
   "   8. EspressoWithMilkAndSugarAndShot",
   "",
   "❌ 새로운 옵션(예: 시럽) 추가 시:",
   "   - 16개 클래스가 필요 (2^4)",
   "   - 클래스 폭발 현상!",
   "   - 유지보수 어려움"]

/-- Method `BadClient.createMixedUI` of the abstract-factory bad example: a
Windows button deliberately combined with a Mac checkbox. -/
def badClientCreateMixedUI : String :=
  String.intercalate ("\n")
    [ButtonP.winButton.paint,
     CheckboxP.macCheckbox.paint,
     "",
     "⚠️ Windows 버튼과 Mac 체크박스가 섞여있습니다!",
     "⚠️ UI 일관성이 깨졌습니다!"]

/-- The abstract-factory `showGoodExample` handler: build a Windows app
and a Mac app through their factories and print both paints. -/
def abstractFactoryShowGoodLines : List String :=
  let winApp := (Application.new .winFactory).createUI
  let macApp := (Application.new .macFactory).createUI
  ["--- 추상 팩토리 패턴 사용 ---",
   "",
   "1. Windows 테마:",
   winApp.paintUI,
   "",
   "2. macOS 테마:",
   macApp.paintUI,
   "",
   "✅ 각 팩토리가 일관된 제품군을 생성합니다.",
   "✅ Windows 팩토리는 Windows 제품만 생성",
   "✅ Mac 팩토리는 Mac 제품만 생성",
   "✅ 테마 일관성이 자동으로 보장됩니다!"]

/-- The abstract-factory `showBadExample` handler. -/
def abstractFactoryShowBadLines : List String :=
  ["--- 직접 조합 방식 (추상 팩토리 미사용) ---",
   "",
   badClientCreateMixedUI,
   "",
   "❌ 클라이언트가 각 제품을 직접 선택하면:",
   "   - Windows 버튼 + Mac 체크박스 같은 일관성 없는 조합 발생",
   "   - UI 테마가 뒤죽박죽 섞임",
   "   - 사용자 경험 저하"]

/-- The observer `showGoodExample` handler: a fixed explanatory list. -/
def observerShowGoodLines : List String :=
  ["--- 옵저버 패턴 사용 ---",
   "",
   "1. Observer 등록 (subscribe):",
   "   - 모바일 앱 등록",
   "   - 웹 대시보드 등록",
   "   - TV 디스플레이 등록",
   "",
   "2. Subject 상태 변경 (온도 25℃):",
   "   - Subject가 자동으로 notify() 호출",
   "   - 모든 Observer의 update() 자동 호출",
   "   - [모바일 앱] 알림 수신: 25℃",
   "   - [웹 대시보드] 알림 수신: 25℃",
   "   - [TV 디스플레이] 알림 수신: 25℃",
   "",
   "3. 새 Observer 추가:",
   "   - 스마트워치 등록",
   "   - Subject 코드 수정 불필요!",
   "",
   "✅ Subject와 Observer가 느슨하게 결합"]

/-- The observer `showBadExample` handler: a fixed explanatory list
(braces of the displayed pseudo-code written as hex escapes). -/
def observerShowBadLines : List String :=
  ["--- 직접 호출 방식 (옵저버 패턴 미사용) ---",
   "",
   "1. Subject가 모든 Observer를 직접 알아야 함:",
   "   - private mobileDisplay",
   "   - private webDisplay",
   "   - private tvDisplay",
   "",
   "2. 상태 변경 시:",
   "   setTemperature(temp) \x7b",
   "     if (this.mobileDisplay) \x7b",
   "       this.mobileDisplay.update(temp);",
   "     \x7d",
   "     if (this.webDisplay) \x7b",
   "       this.webDisplay.update(temp);",
   "     \x7d",
   "     if (this.tvDisplay) \x7b",
   "       this.tvDisplay.update(temp);",
   "     \x7d",
   "   \x7d",
   "",
   "3. 새 Observer 추가 시:",
   "   - private smartWatch 필드 추가",
   "   - setTemperature() 메서드에 if문 추가",
   "   - Subject 코드 수정 필요!",
   "",
   "❌ 강한 결합, 코드 중복, 유지보수 어려움"]

/-- The visitor `showGoodExample` handler: a fixed explanatory list. -/
def visitorShowGoodLines : List String :=
  ["--- 비지터 패턴 사용 ---",
   "",
   "현재 Element 클래스:",
   "  - Circle (accept 메서드만 있음)",
   "  - Square (accept 메서드만 있음)",
   "",
   "연산 1: 면적 계산",
   "  → AreaCalculator Visitor 추가",
   "  → Element 수정 없음",
   "",
   "연산 2: 둘레 계산",
   "  → PerimeterCalculator Visitor 추가",
   "  → Element 수정 없음",
   "",
   "연산 3: 색상 적용",
   "  → ColorApplier Visitor 추가",
   "  → Element 수정 없음",
   "",
   "✅ 새로운 연산 추가 시:",
   "   - Visitor 클래스 1개만 추가",
   "   - Circle, Square 코드 수정 불필요",
   "   - 데이터(Element)와 로직(Visitor) 분리"]

/-- The visitor `showBadExample` handler: a fixed explanatory list
(braces of the displayed pseudo-code written as hex escapes). -/
def visitorShowBadLines : List String :=
  ["--- Element에 메서드 추가 방식 (비지터 미사용) ---",
   "",
   "연산 1: 면적 계산 추가",
   "  class Circle \x7b",
   "    getArea() \x7b /* 면적 계산 */ \x7d",
   "  \x7d",
   "  class Square \x7b",
   "    getArea() \x7b /* 면적 계산 */ \x7d",
   "  \x7d",
   "  → Circle, Square 둘 다 수정",
   "",
   "연산 2: 둘레 계산 추가",
   "  class Circle \x7b",
   "    getPerimeter() \x7b /* 둘레 계산 */ \x7d",
   "  \x7d",
   "  class Square \x7b",
   "    getPerimeter() \x7b /* 둘레 계산 */ \x7d",
   "  \x7d",
   "  → Circle, Square 둘 다 또 수정",
   "",
   "연산 3: 색상 적용 추가",
   "  → Circle, Square 둘 다 또 또 수정...",
   "",
   "❌ 문제점:",
   "   - 연산 추가 시마다 모든 Element 수정",
   "   - 로직이 여러 클래스에 분산",
   "   - 유지보수 어려움"]

/-! ### The application: user-triggered operations of all nine modules

The environment supplies the outcomes of the impure primitives the
handlers may call: `rand k` is the `k`-th `Math.random()` draw of the
handler (already scaled to a natural number; the handlers reduce it by
the modulus they need) and `time k` the `k`-th clock reading.  A handler
is deterministic precisely when its result does not depend on the
environment. -/

structure Env where
  rand : Nat → Nat
  time : Nat → String

/-- One transcript entry: either a plain log string or a visitor result
line (whose display string formats the numeric value). -/
inductive Entry where
  | str (s : String)
  | line (l : ResultLine)
deriving DecidableEq

/-- The persistent per-module state the handlers read or write: the
singleton's load-time creation time, the decorator checkbox options, the
two proxy placeholders created at mount, the weather station with its
subscribed displays, and the traffic-light context. -/
structure AppState where
  singletonTime : String
  options : CoffeeOptions
  image1 : ProxyImage
  image2 : ProxyImage
  weather : WeatherStation
  light : TrafficLightContext
deriving DecidableEq

/-- The nine pattern modules of the shell's registry. -/
inductive PatternModule where
  | singleton | factoryMethod | abstractFactory | adapter | decorator
  | proxy | observer | visitor | state
deriving DecidableEq

/-- Every user-triggered operation (button or checkbox) of every module. -/
inductive UserOp where
  | singletonTestEager
  | singletonShowGood
  | singletonShowBad
  | factoryRunLogistics (t : Logistics)
  | abstractFactoryCreateUI (os : Family)
  | abstractFactoryShowGood
  | abstractFactoryShowBad
  | adapterRunClient
  | decoratorToggleMilk
  | decoratorToggleSugar
  | decoratorToggleShot
  | decoratorMakeCoffee
  | decoratorShowGood
  | decoratorShowBad
  | proxyLoadImage1
  | proxyLoadImage2
  | observerChangeTemperature
  | observerShowGood
  | observerShowBad
  | visitorRun (v : ShapeVisitor)
  | visitorShowGood
  | visitorShowBad
  | stateChangeState
deriving DecidableEq

/-- The module an operation belongs to. -/
def UserOp.module : UserOp → PatternModule
  | .singletonTestEager | .singletonShowGood | .singletonShowBad => .singleton
  | .factoryRunLogistics _ => .factoryMethod
  | .abstractFactoryCreateUI _ | .abstractFactoryShowGood
  | .abstractFactoryShowBad => .abstractFactory
  | .adapterRunClient => .adapter
  | .decoratorToggleMilk | .decoratorToggleSugar | .decoratorToggleShot
  | .decoratorMakeCoffee | .decoratorShowGood | .decoratorShowBad => .decorator
  | .proxyLoadImage1 | .proxyLoadImage2 => .proxy
  | .observerChangeTemperature | .observerShowGood | .observerShowBad => .observer
  | .visitorRun _ | .visitorShowGood | .visitorShowBad => .visitor
  | .stateChangeState => .state

/-- The singleton `showBadExample` handler: three `RegularClass`
constructions, each reading the clock and drawing a random id. -/
def singletonShowBadLines (e : Env) : List String :=
  let i1 : RegularInstance := ⟨e.time 0, e.rand 0 % 10000⟩
  let i2 : RegularInstance := ⟨e.time 1, e.rand 1 % 10000⟩
  let i3 : RegularInstance := ⟨e.time 2, e.rand 2 % 10000⟩
  ["첫 번째 생성: " ++ i1.operation,
   "두 번째 생성: " ++ i2.operation,
   "세 번째 생성: " ++ i3.operation,
   "",
   "instance1 === instance2: false",
   "instance2 === instance3: false",
   "instance1 === instance3: false",
   "",
   "❌ 결과: 모두 다른 인스턴스입니다!",
   "💾 메모리: 인스턴스 3개 생성 (낭비)",
   "⚠️  각 인스턴스가 독립적인 상태를 가져 데이터 불일치 발생 가능"]

/-- The random temperature of `changeTemperature`:
`Math.floor(Math.random() * 40) - 5`, i.e. a draw in 0..39 minus 5. -/
def randomTemp (e : Env) : Int := ((e.rand 0 % 40 : Nat) : Int) - 5

/-- Running one user operation: the transcript it appends and the updated
application state. -/
def runOp : UserOp → AppState → Env → List Entry × AppState
  | .singletonTestEager, s, _ =>
      ((testEagerSingletonLines s.singletonTime).map .str, s)
  | .singletonShowGood, s, _ =>
      ((singletonShowGoodLines s.singletonTime).map .str, s)
  | .singletonShowBad, s, e =>
      ((singletonShowBadLines e).map .str, s)
  | .factoryRunLogistics t, s, _ => ([.str (runLogistics t)], s)
  | .abstractFactoryCreateUI os, s, _ => ([.str (createUIHandler os)], s)
  | .abstractFactoryShowGood, s, _ => (abstractFactoryShowGoodLines.map .str, s)
  | .abstractFactoryShowBad, s, _ => (abstractFactoryShowBadLines.map .str, s)
  | .adapterRunClient, s, _ => ([.str runClientCode], s)
  | .decoratorToggleMilk, s, _ =>
      ([], { s with options := { s.options with milk := !s.options.milk } })
  | .decoratorToggleSugar, s, _ =>
      ([], { s with options := { s.options with sugar := !s.options.sugar } })
  | .decoratorToggleShot, s, _ =>
      ([], { s with options := { s.options with shot := !s.options.shot } })
  | .decoratorMakeCoffee, s, _ => ([.str (makeCoffee s.options)], s)
  | .decoratorShowGood, s, _ => (decoratorShowGoodLines.map .str, s)
  | .decoratorShowBad, s, _ => (decoratorShowBadLines.map .str, s)
  | .proxyLoadImage1, s, _ =>
      let r := s.image1.display
      ([.str ("\n--- [버튼 클릭: 이미지 1] ---"), .str r.1], { s with image1 := r.2 })
  | .proxyLoadImage2, s, _ =>
      let r := s.image2.display
      ([.str ("\n--- [버튼 클릭: 이미지 2] ---"), .str r.1], { s with image2 := r.2 })
  | .observerChangeTemperature, s, e =>
      let r := s.weather.setTemperature (randomTemp e)
      (r.1.map .str, { s with weather := r.2 })
  | .observerShowGood, s, _ => (observerShowGoodLines.map .str, s)
  | .observerShowBad, s, _ => (observerShowBadLines.map .str, s)
  | .visitorRun v, s, _ =>
      let r := runVisitor v
      (.str r.1 :: r.2.map .line, s)
  | .visitorShowGood, s, _ => (visitorShowGoodLines.map .str, s)
  | .visitorShowBad, s, _ => (visitorShowBadLines.map .str, s)
  | .stateChangeState, s, _ =>
      let r := s.light.request
      ([.str r.1], { s with light := r.2 })

/-- An operation is deterministic when its transcript and final state do
not depend on the environment (the random and clock draws). -/
def DeterministicOp (f : AppState → Env → List Entry × AppState) : Prop :=
  ∀ s e₁ e₂, f s e₁ = f s e₂

/-- The spec's §5 claim as stated: at most one module is non-deterministic
— there is a single module outside of which every user-triggered
operation is deterministic. -/
def SoleRandomModuleClaim : Prop :=
  ∃ m : PatternModule, ∀ op : UserOp, op.module ≠ m → DeterministicOp (runOp op)

/-- The application state after mount: the decorator checkboxes cleared,
the two proxy placeholders fresh, the weather station with the mobile and
web displays subscribed, the traffic light in its initial Red state. -/
def mountedState (t : String) : AppState :=
  { singletonTime := t
    options := ⟨false, false, false⟩
    image1 := ProxyImage.create ("Vacation_Photo_001.jpg")
    image2 := ProxyImage.create ("Project_Diagram_002.png")
    weather := (WeatherStation.new.subscribe ⟨0, "모바일 앱 📱"⟩).subscribe ⟨1, "웹 대시보드 💻"⟩
    light := TrafficLightContext.init }

/-! ## Theorems -/

/-! ### Decorator: cost additivity and description order -/

lemma getCost_applyLayers (ls : List Layer) (c : Coffee) :
    (applyLayers ls c).getCost = c.getCost + (ls.map Layer.surcharge).sum := by
  induction ls generalizing c with
  | nil => simp [applyLayers]
  | cons l ls ih =>
      have h : applyLayers (l :: ls) c = applyLayers ls (l.apply c) := rfl
      rw [h, ih]
      cases l <;> simp [Layer.apply, Layer.surcharge, Coffee.getCost] <;> ring

lemma toggleOption_comm (a b : Layer) (o : CoffeeOptions) :
    toggleOption b (toggleOption a o) = toggleOption a (toggleOption b o) := by
  cases a <;> cases b <;> cases o <;> rfl

lemma applyToggles_perm {ts₁ ts₂ : List Layer} (h : ts₁.Perm ts₂) (o : CoffeeOptions) :
    applyToggles ts₁ o = applyToggles ts₂ o := by
  induction h generalizing o with
  | nil => rfl
  | cons x _ ih => exact ih (toggleOption x o)
  | swap x y l => simp only [applyToggles, List.foldl]; rw [toggleOption_comm]
  | trans _ _ ih₁ ih₂ => rw [ih₁, ih₂]

/-- C1: for every subset of the three optional layers — indeed for every
sequence of decorator layers applied in any order — the cost computed by
the Decorator module's order operation is the base cost 3000 plus the sum
of the applied layers' fixed surcharges (milk 500, sugar 200, shot 700);
in particular milk + shot gives 3000 + 500 + 700 = 4200. -/
theorem decorator_total_cost_additive :
    (∀ ls : List Layer,
        (applyLayers ls Coffee.simpleEspresso).getCost =
          3000 + (ls.map Layer.surcharge).sum) ∧
    (∀ o : CoffeeOptions,
        (makeCoffeeObj o).getCost =
          3000 + (if o.milk then 500 else 0) + (if o.sugar then 200 else 0) +
            (if o.shot then 700 else 0)) ∧
    (makeCoffeeObj ⟨true, false, true⟩).getCost = 4200 := by
  refine ⟨fun ls => getCost_applyLayers ls Coffee.simpleEspresso, fun o => ?_, rfl⟩
  rcases o with ⟨m, su, sh⟩
  cases m <;> cases su <;> cases sh <;> rfl

/-- C5: the description produced by the order operation is the base
description with the selected layers' fragments appended in the fixed
application order milk → sugar → shot, absent layers skipped; and the
result depends only on the final checkbox values, not on the order in
which the checkboxes were toggled (toggle sequences that are permutations
of one another give the same order output). -/
theorem decorator_description_order :
    (∀ o : CoffeeOptions,
        (makeCoffeeObj o).getDescription =
          "에스프레소" ++ (if o.milk then " + 우유" else "") ++
            (if o.sugar then " + 설탕" else "") ++
            (if o.shot then " + 샷 추가" else "")) ∧
    (∀ (ts₁ ts₂ : List Layer) (o : CoffeeOptions), ts₁.Perm ts₂ →
        makeCoffee (applyToggles ts₁ o) = makeCoffee (applyToggles ts₂ o)) := by
  constructor
  · intro o
    rcases o with ⟨m, su, sh⟩
    cases m <;> cases su <;> cases sh <;> rfl
  · intro ts₁ ts₂ o h
    rw [applyToggles_perm h]

/-- Witness for C5 at a concrete toggle pair: toggling milk then shot and
toggling shot then milk yield the same order output. -/
theorem decorator_description_order_witness :
    ([Layer.milk, Layer.shot].Perm [Layer.shot, Layer.milk]) ∧
    makeCoffee (applyToggles [Layer.milk, Layer.shot] ⟨false, false, false⟩) =
      makeCoffee (applyToggles [Layer.shot, Layer.milk] ⟨false, false, false⟩) :=
  ⟨by decide,
   decorator_description_order.2 [Layer.milk, Layer.shot] [Layer.shot, Layer.milk]
     ⟨false, false, false⟩ (by decide)⟩

/-! ### State: the 3-element request cycle -/

lemma handle_cycleState (k : Nat) :
    (cycleState k).handle = (cycleLine k, cycleState (k + 1)) := by
  have h : k % 3 = 0 ∨ k % 3 = 1 ∨ k % 3 = 2 := by omega
  rcases h with h | h | h <;>
    simp [cycleState, cycleLine, TrafficLightState.handle, h, Nat.add_mod]

lemma requestN_cycle (N : Nat) : ∀ k : Nat,
    requestN N ⟨cycleState k⟩ =
      ((List.range N).map (fun j => cycleLine (k + j)), ⟨cycleState (k + N)⟩) := by
  induction N with
  | zero => intro k; simp [requestN]
  | succ n ih =>
      intro k
      have hreq : (⟨cycleState k⟩ : TrafficLightContext).request =
          (cycleLine k, ⟨cycleState (k + 1)⟩) := by
        simp [TrafficLightContext.request, handle_cycleState]
      have hstep : requestN (n + 1) ⟨cycleState k⟩ =
          (cycleLine k :: (requestN n ⟨cycleState (k + 1)⟩).1,
           (requestN n ⟨cycleState (k + 1)⟩).2) := by
        simp [requestN, hreq]
      rw [hstep, ih (k + 1)]
      have hl : (List.range (n + 1)).map (fun j => cycleLine (k + j)) =
          cycleLine k :: (List.range n).map (fun j => cycleLine (k + 1 + j)) := by
        rw [List.range_succ_eq_map, List.map_cons, List.map_map]
        refine congrArg₂ List.cons (by simp) ?_
        refine List.map_congr_left ?_
        intro j _
        simp only [Function.comp_apply]
        congr 1
        omega
      rw [hl]
      refine congrArg₂ Prod.mk rfl ?_
      have : k + 1 + n = k + (n + 1) := by omega
      rw [this]

/-- C2: starting from the initial Red context, the transcript of N
consecutive requests is, for every N, the map of the fixed 3-cycle line
function over 0..N-1 (the k-th call returns the (k mod 3)-th of the
STOP, GO, CAUTION lines), and after exactly 3 requests the context is
again the initial Red context. -/
theorem state_cycle_deterministic :
    (∀ N : Nat, (requestN N TrafficLightContext.init).1 =
        (List.range N).map cycleLine) ∧
    (requestN 3 TrafficLightContext.init).2 = TrafficLightContext.init := by
  constructor
  · intro N
    have h0 : TrafficLightContext.init = ⟨cycleState 0⟩ := rfl
    rw [h0, requestN_cycle N 0]
    simp
  · rfl

/-! ### Proxy: single construction of the heavyweight resource -/

lemma string_ne_append₂ (s p f q : String) (i : Nat)
    (hi : i < p.data.length)
    (hne : s.data[i]? ≠ p.data[i]?) :
    s ≠ p ++ f ++ q := by
  intro h
  apply hne
  rw [h]
  have hd : (p ++ f ++ q).data = p.data ++ (f.data ++ q.data) := by
    simp [String.data_append]
  rw [hd, List.getElem?_append_left hi]

lemma displayLogs_fresh (f : String) :
    (ProxyImage.create f).displayLogs =
      (proxyFirstCallLogs f, ⟨some (RealImage.create f), f⟩) := rfl

lemma displayLogs_loaded (f : String) :
    (⟨some (RealImage.create f), f⟩ : ProxyImage).displayLogs =
      (proxyLaterCallLogs f, ⟨some (RealImage.create f), f⟩) := rfl

lemma proxyRun_loaded (k : Nat) (f : String) :
    proxyRun k ⟨some (RealImage.create f), f⟩ =
      (List.replicate k (proxyLaterCallLogs f), ⟨some (RealImage.create f), f⟩) := by
  induction k with
  | zero => rfl
  | succ n ih => simp [proxyRun, displayLogs_loaded, ih, List.replicate_succ]

lemma proxyRun_fresh (k : Nat) (f : String) :
    proxyRun (k + 1) (ProxyImage.create f) =
      (proxyFirstCallLogs f :: List.replicate k (proxyLaterCallLogs f),
       ⟨some (RealImage.create f), f⟩) := by
  simp [proxyRun, displayLogs_fresh, proxyRun_loaded]

lemma creationMarker_not_later (f : String) :
    proxyCreationMarker ∉ proxyLaterCallLogs f := by
  intro hmem
  simp only [proxyLaterCallLogs, List.mem_cons, List.not_mem_nil, or_false] at hmem
  rcases hmem with h | h | h
  · exact string_ne_append₂ proxyCreationMarker ("[ProxyImage] display() 호출됨 (") f (")")
      13 (by decide) (by decide) h
  · exact absurd h (by decide)
  · exact string_ne_append₂ proxyCreationMarker ("[RealImage] ") f (" 화면에 표시 🖼️")
      1 (by decide) (by decide) h

lemma reuseLine_not_first (f : String) :
    proxyReuseLine ∉ proxyFirstCallLogs f := by
  intro hmem
  simp only [proxyFirstCallLogs, List.mem_cons, List.not_mem_nil, or_false] at hmem
  rcases hmem with h | h | h | h
  · exact string_ne_append₂ proxyReuseLine ("[ProxyImage] display() 호출됨 (") f (")")
      13 (by decide) (by decide) h
  · exact absurd h (by decide)
  · exact string_ne_append₂ proxyReuseLine ("[RealImage] ") f (" 로딩 완료... (무거운 작업)")
      1 (by decide) (by decide) h
  · exact string_ne_append₂ proxyReuseLine ("[RealImage] ") f (" 화면에 표시 🖼️")
      1 (by decide) (by decide) h

/-- C3: for every placeholder (any filename) and every K ≥ 1, the K-call
transcript is the creation-path transcript followed by K−1 copies of the
reuse-path transcript; the cached `RealImage` is absent exactly before
the first call (so the heavyweight resource is constructed exactly once,
on the first call); the first call's transcript contains the creation
marker and the load log and not the reuse line, and every later call's
transcript contains the reuse line and no creation marker. -/
theorem proxy_single_construction (f : String) (K : Nat) (hK : 1 ≤ K) :
    (proxyRun K (ProxyImage.create f)).1 =
      proxyFirstCallLogs f :: List.replicate (K - 1) (proxyLaterCallLogs f) ∧
    (∀ i : Nat, (proxyRun i (ProxyImage.create f)).2.realImage = none ↔ i = 0) ∧
    proxyCreationMarker ∈ proxyFirstCallLogs f ∧
    ("[RealImage] " ++ f ++ " 로딩 완료... (무거운 작업)") ∈ proxyFirstCallLogs f ∧
    proxyReuseLine ∉ proxyFirstCallLogs f ∧
    proxyReuseLine ∈ proxyLaterCallLogs f ∧
    proxyCreationMarker ∉ proxyLaterCallLogs f := by
  refine ⟨?_, ?_, ?_, ?_, reuseLine_not_first f, ?_, creationMarker_not_later f⟩
  · obtain ⟨k, rfl⟩ : ∃ k, K = k + 1 := ⟨K - 1, by omega⟩
    rw [proxyRun_fresh]
    simp
  · intro i
    cases i with
    | zero => simp [proxyRun, ProxyImage.create]
    | succ n => rw [proxyRun_fresh]; simp
  · simp only [proxyFirstCallLogs]
    exact List.mem_cons_of_mem _ (List.mem_cons_self _ _)
  · simp only [proxyFirstCallLogs]
    exact List.mem_cons_of_mem _ (List.mem_cons_of_mem _ (List.mem_cons_self _ _))
  · simp only [proxyLaterCallLogs]
    exact List.mem_cons_of_mem _ (List.mem_cons_self _ _)

/-- Witness for C3 at the mounted placeholder for the first image and
K = 2 calls. -/
theorem proxy_single_construction_witness :
    (1 ≤ 2 ∧
      (proxyRun 2 (ProxyImage.create ("Vacation_Photo_001.jpg"))).1 =
        proxyFirstCallLogs ("Vacation_Photo_001.jpg") ::
          List.replicate 1 (proxyLaterCallLogs ("Vacation_Photo_001.jpg"))) ∧
    (proxyRun 1 (ProxyImage.create ("Vacation_Photo_001.jpg"))).2.realImage ≠ none :=
  ⟨⟨by decide, (proxy_single_construction ("Vacation_Photo_001.jpg") 2 (by decide)).1⟩,
   fun h =>
     Nat.one_ne_zero
       (((proxy_single_construction ("Vacation_Photo_001.jpg") 2 (by decide)).2.1 1).1 h)⟩

/-! ### Observer: fan-out, unsubscribe, idempotent subscribe -/

/-- C4: one `setTemperature` call produces the temperature-change header
line, the notify count line, and then exactly one notification entry per
registered observer, in registration order; with no observers the entry
list after the headers is empty. -/
theorem observer_fanout (w : WeatherStation) (temp : Int) :
    (w.setTemperature temp).1 =
      ("--- (기상 관측소 온도가 " ++ toString temp ++ "℃로 변경됨) ---") ::
        ("[WeatherStation] " ++ toString w.observers.length ++
            "개의 Observer에게 알림 전송...") ::
        w.observers.map (fun o => o.update temp) ∧
    notificationEntries (w.setTemperature temp).1 =
      w.observers.map (fun o => o.update temp) ∧
    (notificationEntries (w.setTemperature temp).1).length = w.observers.length ∧
    (w.observers = [] → notificationEntries (w.setTemperature temp).1 = []) := by
  refine ⟨rfl, rfl, ?_, fun h => ?_⟩
  · simp [notificationEntries, WeatherStation.setTemperature, WeatherStation.notify]
  · simp [notificationEntries, WeatherStation.setTemperature, WeatherStation.notify, h]

/-- Witness for C4 at the observer-free station: the entry list after the
two header lines is empty. -/
theorem observer_fanout_witness :
    notificationEntries ((⟨[], 0⟩ : WeatherStation).setTemperature 25).1 = [] :=
  (observer_fanout ⟨[], 0⟩ 25).2.2.2 rfl

/-- C9: unsubscribing an observer that is in the (duplicate-free)
subscriber list removes it: it is gone from the list, the list shrinks by
one, a subsequent `setTemperature` call notifies exactly the remaining
observers in order, and every other registered observer is still
subscribed with exactly one list entry (hence exactly one notification). -/
theorem observer_unsubscribe (w : WeatherStation) (o : DisplayObserver) (temp : Int)
    (hmem : o ∈ w.observers) (hnd : w.observers.Nodup) :
    o ∉ (w.unsubscribe o).observers ∧
    (w.unsubscribe o).observers = w.observers.erase o ∧
    (w.unsubscribe o).observers.length + 1 = w.observers.length ∧
    notificationEntries ((w.unsubscribe o).setTemperature temp).1 =
      ((w.unsubscribe o).observers).map (fun o' => o'.update temp) ∧
    (∀ o', o' ∈ w.observers → o' ≠ o →
        o' ∈ (w.unsubscribe o).observers ∧
          (w.unsubscribe o).observers.count o' = 1) := by
  refine ⟨?_, rfl, ?_, rfl, ?_⟩
  · intro hc
    exact ((List.Nodup.mem_erase_iff hnd).1 hc).1 rfl
  · have h1 : (w.observers.erase o).length = w.observers.length - 1 :=
      List.length_erase_of_mem hmem
    have h2 : 0 < w.observers.length := List.length_pos_of_mem hmem
    show (w.observers.erase o).length + 1 = w.observers.length
    omega
  · intro o' h1 h2
    refine ⟨?_, ?_⟩
    · exact (List.mem_erase_of_ne h2).2 h1
    · show (w.observers.erase o).count o' = 1
      rw [List.count_erase_of_ne h2]
      exact List.count_eq_one_of_mem hnd h1

/-- Witness for C9: unsubscribing the mobile display from the mounted
station removes it while the web display keeps exactly one entry. -/
theorem observer_unsubscribe_witness :
    (⟨0, "모바일 앱 📱"⟩ : DisplayObserver) ∉
        ((mountedState ("12:00:00")).weather.unsubscribe ⟨0, "모바일 앱 📱"⟩).observers ∧
    ((mountedState ("12:00:00")).weather.unsubscribe
        ⟨0, "모바일 앱 📱"⟩).observers.count ⟨1, "웹 대시보드 💻"⟩ = 1 :=
  ⟨(observer_unsubscribe (mountedState ("12:00:00")).weather ⟨0, "모바일 앱 📱"⟩ 25
      (by decide) (by decide)).1,
   ((observer_unsubscribe (mountedState ("12:00:00")).weather ⟨0, "모바일 앱 📱"⟩ 25
      (by decide) (by decide)).2.2.2.2 ⟨1, "웹 대시보드 💻"⟩ (by decide) (by decide)).2⟩

/-- C10: subscribing an observer that is already in the subscriber list
returns the station unchanged, and on a duplicate-free list `subscribe`
keeps the list duplicate-free with the subscribed observer appearing
exactly once — so no observer can be notified twice per change. -/
theorem observer_subscribe_idempotent (w : WeatherStation) (o : DisplayObserver) :
    (o ∈ w.observers → w.subscribe o = w) ∧
    (w.observers.Nodup →
      (w.subscribe o).observers.Nodup ∧ (w.subscribe o).observers.count o = 1) := by
  constructor
  · intro h
    simp [WeatherStation.subscribe, h]
  · intro hnd
    by_cases h : o ∈ w.observers
    · refine ⟨by simp [WeatherStation.subscribe, h, hnd], ?_⟩
      simp only [WeatherStation.subscribe, if_pos h]
      exact List.count_eq_one_of_mem hnd h
    · constructor
      · simp [WeatherStation.subscribe, if_neg h, List.nodup_append, hnd,
          List.disjoint_singleton, h]
      · simp [WeatherStation.subscribe, if_neg h, List.count_append,
          List.count_eq_zero_of_not_mem h]

/-- Witness for C10: re-subscribing the already-subscribed mobile display
to the mounted station is a no-op and it keeps a single list entry. -/
theorem observer_subscribe_idempotent_witness :
    (mountedState ("12:00:00")).weather.subscribe ⟨0, "모바일 앱 📱"⟩ =
      (mountedState ("12:00:00")).weather ∧
    ((mountedState ("12:00:00")).weather.subscribe
        ⟨0, "모바일 앱 📱"⟩).observers.count ⟨0, "모바일 앱 📱"⟩ = 1 :=
  ⟨(observer_subscribe_idempotent (mountedState ("12:00:00")).weather
      ⟨0, "모바일 앱 📱"⟩).1 (by decide),
   ((observer_subscribe_idempotent (mountedState ("12:00:00")).weather
      ⟨0, "모바일 앱 📱"⟩).2 (by decide)).2⟩

/-! ### Abstract Factory: family consistency -/

/-- The invariant of an `Application` constructed for factory `f`: the
stored factory is `f`, and the products are either both absent (before
any `createUI`) or both the ones `f` creates. -/
def AppInv (f : GUIFactory) (a : Application) : Prop :=
  a.factory = f ∧
    ((a.button = none ∧ a.checkbox = none) ∨
      (a.button = some f.createButton ∧ a.checkbox = some f.createCheckbox))

lemma runAppCalls_inv (f : GUIFactory) (calls : List AppCall) (a : Application)
    (h : AppInv f a) : AppInv f (runAppCalls calls a) := by
  induction calls generalizing a with
  | nil => exact h
  | cons c rest ih =>
      have hstep : runAppCalls (c :: rest) a =
          runAppCalls rest (match c with | .createUI => a.createUI | .paintUI => a) := rfl
      rw [hstep]
      cases c with
      | createUI =>
          exact ih a.createUI ⟨h.1, Or.inr (by simp [Application.createUI, h.1])⟩
      | paintUI => exact ih a h

/-- C6: each concrete factory creates only its own family's button and
checkbox, and for any sequence of `createUI`/`paintUI` calls on an
`Application` built over a factory, whenever both products are present
they belong to the same family — no call sequence through the factory
path yields a mixed-family pair. -/
theorem abstract_factory_family_consistency :
    (∀ f : GUIFactory,
        f.createButton.family = f.family ∧ f.createCheckbox.family = f.family) ∧
    (∀ (f : GUIFactory) (calls : List AppCall) (b : ButtonP) (c : CheckboxP),
        (runAppCalls calls (Application.new f)).button = some b →
        (runAppCalls calls (Application.new f)).checkbox = some c →
        b.family = c.family) := by
  constructor
  · intro f
    cases f <;> exact ⟨rfl, rfl⟩
  · intro f calls b c hb hc
    have hinv : AppInv f (runAppCalls calls (Application.new f)) :=
      runAppCalls_inv f calls (Application.new f) ⟨rfl, Or.inl ⟨rfl, rfl⟩⟩
    rcases hinv.2 with ⟨h1, _⟩ | ⟨h1, h2⟩
    · rw [h1] at hb
      cases hb
    · rw [h1] at hb
      rw [h2] at hc
      cases hb
      cases hc
      cases f <;> rfl

/-- Witness for C6: one `createUI` on a Windows-factory application
yields the Windows button and checkbox, whose families agree. -/
theorem abstract_factory_family_consistency_witness :
    ButtonP.winButton.family = CheckboxP.winCheckbox.family :=
  abstract_factory_family_consistency.2 GUIFactory.winFactory [AppCall.createUI]
    ButtonP.winButton CheckboxP.winCheckbox rfl rfl

/-! ### Visitor: computed values and applicability -/

/-- C7: the area visitor on a circle of radius r computes π·r² and the
perimeter visitor on a square of side s computes 4·s; each visitor,
applied via `accept` over the fixed shape list [Circle 10, Square 8,
Circle 5], produces exactly one result line per element (in element
order), and `accept` returns every element unmodified. -/
theorem visitor_values_and_applicability :
    (∀ r : ℚ, (((Shape.circle r).accept .areaCalculator).1.value).toReal =
        Real.pi * (r : ℝ) ^ 2) ∧
    (∀ s : ℚ, (((Shape.square s).accept .perimeterCalculator).1.value).toReal =
        4 * (s : ℝ)) ∧
    (∀ v : ShapeVisitor,
        (runVisitor v).2 = shapes.map (fun s => (s.accept v).1) ∧
          (runVisitor v).2.length = shapes.length) ∧
    (∀ (s : Shape) (v : ShapeVisitor), (s.accept v).2 = s) := by
  refine ⟨fun r => ?_, fun s => ?_, fun v => ⟨rfl, by cases v <;> rfl⟩,
    fun s v => by cases s <;> rfl⟩
  · simp only [Shape.accept, ShapeVisitor.visitCircle, NumVal.toReal]
    push_cast
    ring
  · simp only [Shape.accept, ShapeVisitor.visitSquare, NumVal.toReal]
    push_cast
    ring

/-! ### Determinism of the user-triggered operations -/

/-- Counterexample to C8 as stated: it is not the case that a single
module contains all non-determinism — whichever module is excepted, some
operation of another module still depends on the random draws.  Both the
Observer module's temperature change and the Singleton module's
bad-example run produce different transcripts for different draws, from
the same mounted state. -/
theorem sole_random_module_refuted : ¬ SoleRandomModuleClaim := by
  rintro ⟨m, h⟩
  have hobs : runOp UserOp.observerChangeTemperature (mountedState ("12:00:00"))
        ⟨fun _ => 0, fun _ => "12:00:00"⟩ ≠
      runOp UserOp.observerChangeTemperature (mountedState ("12:00:00"))
        ⟨fun _ => 1, fun _ => "12:00:00"⟩ := by decide
  have hsing : runOp UserOp.singletonShowBad (mountedState ("12:00:00"))
        ⟨fun _ => 0, fun _ => "12:00:00"⟩ ≠
      runOp UserOp.singletonShowBad (mountedState ("12:00:00"))
        ⟨fun _ => 1, fun _ => "12:00:00"⟩ := by decide
  by_cases hm : m = PatternModule.singleton
  · exact hobs (h UserOp.observerChangeTemperature (by rw [hm]; decide)
      (mountedState ("12:00:00")) ⟨fun _ => 0, fun _ => "12:00:00"⟩
      ⟨fun _ => 1, fun _ => "12:00:00"⟩)
  · exact hsing (h UserOp.singletonShowBad (fun hc => hm hc.symm)
      (mountedState ("12:00:00")) ⟨fun _ => 0, fun _ => "12:00:00"⟩
      ⟨fun _ => 1, fun _ => "12:00:00"⟩)

/-- C8 (amended): every user-triggered operation of every module is
deterministic except the two random ones — the Observer module's
temperature change and the Singleton module's bad-example run.  In those
two, the randomness affects only displayed values, never control flow:
the transcript length is the same for all draws, the observer operation's
state change is exactly storing the drawn temperature (subscribers
untouched), and the singleton bad-example changes no state at all. -/
theorem determinism_two_exceptions :
    (∀ op : UserOp, op ≠ UserOp.observerChangeTemperature →
        op ≠ UserOp.singletonShowBad → DeterministicOp (runOp op)) ∧
    (∀ (s : AppState) (e₁ e₂ : Env),
        ((runOp UserOp.observerChangeTemperature s e₁).1).length =
          ((runOp UserOp.observerChangeTemperature s e₂).1).length) ∧
    (∀ (s : AppState) (e : Env),
        (runOp UserOp.observerChangeTemperature s e).2 =
          { s with weather := ⟨s.weather.observers, randomTemp e⟩ }) ∧
    (∀ (s : AppState) (e₁ e₂ : Env),
        ((runOp UserOp.singletonShowBad s e₁).1).length =
          ((runOp UserOp.singletonShowBad s e₂).1).length) ∧
    (∀ (s : AppState) (e : Env), (runOp UserOp.singletonShowBad s e).2 = s) := by
  refine ⟨?_, ?_, fun s e => rfl, fun s e₁ e₂ => rfl, fun s e => rfl⟩
  · intro op h1 h2 s e₁ e₂
    cases op <;> first
      | rfl
      | exact absurd rfl h1
      | exact absurd rfl h2
  · intro s e₁ e₂
    simp [runOp, WeatherStation.setTemperature, WeatherStation.notify]

/-- Witness for the amended C8: the state module's request operation run
under two different environments gives identical results. -/
theorem determinism_two_exceptions_witness :
    runOp UserOp.stateChangeState (mountedState ("12:00:00"))
        ⟨fun _ => 0, fun _ => "12:00:00"⟩ =
      runOp UserOp.stateChangeState (mountedState ("12:00:00"))
        ⟨fun _ => 1, fun _ => "12:00:00"⟩ :=
  determinism_two_exceptions.1 UserOp.stateChangeState (by decide) (by decide)
    (mountedState ("12:00:00")) ⟨fun _ => 0, fun _ => "12:00:00"⟩
    ⟨fun _ => 1, fun _ => "12:00:00"⟩

end PB3

